import Mathlib

/-
Verification of the go-inkscape process-proxy core (proxy.go, option.go)
against its natural-language specification.

The Go code is shallowly embedded: byte slices become lists of characters,
channels become explicit buffer/closed-flag records, and the goroutine
interactions of `sendCommand` are modelled as a deterministic fold over an
explicit arrival-order trace of stdout chunks, stderr chunks and context
cancellation.  Blocking that can never be woken is represented by dedicated
"never returns" outcomes.
-/

namespace Inkscape

/-- Go `[]byte` values, modelled as lists of characters. -/
abbrev Bytes := List Char

/-- isPrompt (proxy.go): `bytes.Equal(data, []byte(">"))`. -/
def isPrompt (data : Bytes) : Bool :=
  data == ['>']

/-- Go `bytes.Split(b, []byte("\n"))`: split on newline; the result is never
empty, and a trailing separator yields a trailing empty part. -/
def splitNewline : Bytes → List Bytes
  | [] => [[]]
  | c :: rest =>
    if c = '\n' then [] :: splitNewline rest
    else
      match splitNewline rest with
      | [] => [[c]]
      | p :: ps => (c :: p) :: ps

/-- Whether `pre` is a prefix of `b` (Go `bytes.HasPrefix`). -/
def isPrefixBytes : Bytes → Bytes → Bool
  | [], _ => true
  | _ :: _, [] => false
  | a :: as, b :: bs => a == b && isPrefixBytes as bs

/-- Go `bytes.HasSuffix(b, suffix)`. -/
def hasSuffixBytes (b suffix : Bytes) : Bool :=
  isPrefixBytes suffix.reverse b.reverse

/-- Go `bytes.Contains(b, sub)`. -/
def containsBytes : Bytes → Bytes → Bool
  | [], sub => sub.isEmpty
  | c :: rest, sub => isPrefixBytes sub (c :: rest) || containsBytes rest sub

/-- Go `unicode.IsSpace`, on the code points `bytes.TrimSpace` trims. -/
def isSpaceChar (c : Char) : Bool :=
  c = ' ' || c = '\t' || c = '\n' || c.toNat = 11 || c.toNat = 12 || c = '\r'
    || c.toNat = 0x85 || c.toNat = 0xA0 || c.toNat = 0x1680
    || (0x2000 ≤ c.toNat && c.toNat ≤ 0x200A)
    || c.toNat = 0x2028 || c.toNat = 0x2029 || c.toNat = 0x202F
    || c.toNat = 0x205F || c.toNat = 0x3000

/-- Go `bytes.TrimSpace`: drop leading and trailing white space. -/
def trimSpace (b : Bytes) : Bytes :=
  ((b.dropWhile isSpaceChar).reverse.dropWhile isSpaceChar).reverse

/-- Go `strings.Join(args, ";")` (RawCommandsContext, proxy.go). -/
def joinSemicolon : List Bytes → Bytes
  | [] => []
  | [a] => a
  | a :: b :: rest => a ++ ';' :: joinSemicolon (b :: rest)

/-- sendCommand (proxy.go): append a trailing newline unless one is present
(`if !bytes.HasSuffix(b, []byte{'\n'}) { b = append(b, '\n') }`). -/
def appendNewline (b : Bytes) : Bytes :=
  if hasSuffixBytes b ['\n'] then b else b ++ ['\n']

/-- The constant `"WARNING"` compared against stderr lines (proxy.go). -/
def warningBytes : Bytes := ['W', 'A', 'R', 'N', 'I', 'N', 'G']

/-- The constant `shellModeBanner = "Inkscape interactive shell mode"`. -/
def shellModeBannerBytes : Bytes :=
  ['I', 'n', 'k', 's', 'c', 'a', 'p', 'e', ' ',
   'i', 'n', 't', 'e', 'r', 'a', 'c', 't', 'i', 'v', 'e', ' ',
   's', 'h', 'e', 'l', 'l', ' ', 'm', 'o', 'd', 'e']

/-- The constant `quitCommand = "quit"` sent by Close (proxy.go). -/
def quitBytes : Bytes := ['q', 'u', 'i', 't']

/-- The constant `defaultCmdName = "inkscape"`. -/
def defaultCmdNameBytes : Bytes := ['i', 'n', 'k', 's', 'c', 'a', 'p', 'e']

/-! ### Channels

A Go buffered channel is modelled by its capacity, its queued values and its
closed flag.  The operations mirror Go semantics: a receive on a closed
channel never blocks (it yields queued values, then zero values); a send on
a closed channel panics; a send on a full open channel blocks. -/

/-- A Go channel: capacity, queued contents (oldest first), closed flag. -/
structure Chan (α : Type) where
  cap : Nat
  buf : List α
  closed : Bool
deriving DecidableEq

/-- Outcome of a blocking receive. -/
inductive RecvOutcome (α : Type) where
  /-- A queued value was received. -/
  | got (a : α) (c : Chan α)
  /-- The channel is closed and empty: the receive returns the zero value
  immediately. -/
  | closedEmpty (c : Chan α)
  /-- The channel is open and empty: the receive suspends until a sender
  arrives. -/
  | suspend
deriving DecidableEq

/-- Blocking receive (`<-c`). -/
def Chan.recvBlocking {α : Type} (c : Chan α) : RecvOutcome α :=
  match c.buf with
  | a :: rest => .got a { c with buf := rest }
  | [] => if c.closed then .closedEmpty c else .suspend

/-- Outcome of a send. -/
inductive SendChanOutcome (α : Type) where
  /-- The value was queued. -/
  | sent (c : Chan α)
  /-- The channel is closed: sending panics. -/
  | panicked
  /-- The buffer is full: the send suspends until a receiver arrives. -/
  | suspend
deriving DecidableEq

/-- Send (`c <- a`). -/
def Chan.send {α : Type} (c : Chan α) (a : α) : SendChanOutcome α :=
  if c.closed then .panicked
  else if c.cap ≤ c.buf.length then .suspend
  else .sent { c with buf := c.buf ++ [a] }

/-- drain (proxy.go): a `select` receive with a `default` branch, looped.  On
an open channel it empties the buffer and returns; on a closed channel the
receive case is always ready (closed channels never block a receive), so the
`default` branch is never taken and the loop never terminates.  `none` marks
that divergence. -/
def drain {α : Type} (c : Chan α) : Option (Chan α) :=
  if c.closed then none else some { c with buf := [] }

/-! ### Configuration (option.go) -/

/-- Options (option.go): the configuration snapshot. -/
structure Options where
  commandName : Bytes
  maxRetry : Int
  commandQueueLength : Int
  verbose : Bool
  suppressWarning : Bool
deriving DecidableEq

/-- Option (option.go): `type Option func(o *Options)`. -/
def GoOption := Options → Options

/-- CommandName (option.go). -/
def CommandName (commandName : Bytes) : GoOption :=
  fun o => { o with commandName := commandName }

/-- MaxRetry (option.go). -/
def MaxRetry (retry : Int) : GoOption :=
  fun o => { o with maxRetry := retry }

/-- CommandQueueLength (option.go): `o.commandQueueLength = length`. -/
def CommandQueueLength (length : Int) : GoOption :=
  fun o => { o with commandQueueLength := length }

/-- SuppressWarning (option.go). -/
def SuppressWarning (suppress : Bool) : GoOption :=
  fun o => { o with suppressWarning := suppress }

/-- Verbose (option.go). -/
def Verbose (verbose : Bool) : GoOption :=
  fun o => { o with verbose := verbose }

/-- mergeOptions (option.go): apply each override in order to the defaults. -/
def mergeOptions (dest : Options) (opts : List GoOption) : Options :=
  opts.foldl (fun d opt => opt d) dest

/-! ### The Proxy (proxy.go) -/

/-- Proxy (proxy.go): options, the single-slot limiter, the request queue and
the two output channels.  The logger and the context/cancel pair carry no
protocol state and are omitted. -/
structure Proxy where
  options : Options
  requestLimiter : Chan Unit
  requestQueue : Chan Bytes
  stdout : Chan Bytes
  stderr : Chan Bytes
deriving DecidableEq

/-- NewProxy (proxy.go): defaults (`commandName: defaultCmdName, maxRetry: 5,
verbose: false, suppressWarning: true`; `commandQueueLength` is left at the Go
zero value) merged with the overrides; the stdout, stderr and request queues
are created with `make(chan []byte, 100)` and the limiter with
`make(chan struct{}, 1)`. -/
def NewProxy (opts : List GoOption) : Proxy :=
  let options := mergeOptions
    { commandName := defaultCmdNameBytes
      maxRetry := 5
      commandQueueLength := 0
      verbose := false
      suppressWarning := true } opts
  { options := options
    stdout := { cap := 100, buf := [], closed := false }
    stderr := { cap := 100, buf := [], closed := false }
    requestLimiter := { cap := 1, buf := [], closed := false }
    requestQueue := { cap := 100, buf := [], closed := false } }

/-! ### runBackground's output routing (proxy.go) -/

/-- The stderr case of runBackground's select loop: an empty chunk is
dropped; when `suppressWarning` is set, a chunk containing `"WARNING"` is
dropped; otherwise the chunk is forwarded to `p.stderr` trimmed of
surrounding white space.  `none` means nothing is forwarded. -/
def routeStderr (suppressWarning : Bool) (bytesErr : Bytes) : Option Bytes :=
  if bytesErr.length = 0 then none
  else if suppressWarning && containsBytes bytesErr warningBytes then none
  else some (trimSpace bytesErr)

/-- The stdout case of runBackground's select loop: an empty chunk is
dropped; any other chunk is forwarded to `p.stdout` trimmed, with no further
inspection of its content. -/
def routeStdout (bytesOut : Bytes) : Option Bytes :=
  if bytesOut.length = 0 then none
  else some (trimSpace bytesOut)

/-- Whether a raw stdout chunk contains a prompt line, per runBackground's
startup wait: the chunk is trimmed, split on newlines, and each part is
tested with isPrompt. -/
def chunkHasPrompt (chunk : Bytes) : Bool :=
  (splitNewline (trimSpace chunk)).any isPrompt

/-- runBackground's startup wait (proxy.go): consume raw stdout chunks, all
of them discarded, until one contains a prompt line; yields the unconsumed
remainder, or `none` when no prompt ever arrives (the loop then blocks on
`<-stdoutC` forever). -/
def startupWait : List Bytes → Option (List Bytes)
  | [] => none
  | c :: rest => if chunkHasPrompt c then some rest else startupWait rest

/-- runBackground's token mint after the startup wait: a `select` send on
`p.requestLimiter` with a `default` branch.  A closed channel would make the
chosen send panic (`none`); a full limiter takes the `default` branch and
discards the token; otherwise the token is queued. -/
def mintToken (p : Proxy) : Option Proxy :=
  if p.requestLimiter.closed then none
  else
    match p.requestLimiter.send () with
    | .sent lim => some { p with requestLimiter := lim }
    | _ => some p

/-- Outcome of one runBackground invocation, observed up to the point where
its command/output loop starts. -/
inductive RunBgResult where
  /-- Starting failed — `cmd.Start()` (or the stdin pipe) errored: runBackground returned an
  error before reaching the startup wait, leaving the proxy unchanged. -/
  | startErr (p : Proxy)
  /-- The process started but no prompt chunk ever arrived: the startup wait
  blocks forever and runBackground never returns. -/
  | blockedStartup (p : Proxy)
  /-- The token mint hit a closed limiter and panicked. -/
  | panickedStartup (p : Proxy)
  /-- The first prompt was observed and the limiter token was minted;
  runBackground is now in its command/output loop. -/
  | started (p : Proxy) (rest : List Bytes)
deriving DecidableEq

/-- runBackground (proxy.go) up to its command/output loop: start the
process, wait for the first prompt chunk, then mint the limiter token. -/
def runBackgroundStartup (p : Proxy) (startOk : Bool) (chunks : List Bytes) :
    RunBgResult :=
  if !startOk then .startErr p
  else
    match startupWait chunks with
    | none => .blockedStartup p
    | some rest =>
      match mintToken p with
      | none => .panickedStartup p
      | some p' => .started p' rest

/-- Modelled from the spec: `runner.RunWithRetry` with
`NewExponentialBackoffRetry(maxRetry)` (an external library, not part of this
repository) re-invokes the supervised function on error, with exponential
backoff, until the attempt budget is exhausted or the context is cancelled
(spec section 4.2).  The goroutine spawned by Run (proxy.go) performs no
teardown after it: exhaustion leaves the proxy exactly as the failing
attempts left it. -/
def runWithRetry (p : Proxy) (attempts : Nat) (startOk : Bool)
    (chunks : List Bytes) : Proxy :=
  match attempts with
  | 0 => p
  | n + 1 =>
    match runBackgroundStartup p startOk chunks with
    | .startErr p' => runWithRetry p' n startOk chunks
    | .blockedStartup p' => p'
    | .panickedStartup p' => p'
    | .started p' _ => p'

/-! ### sendCommand (proxy.go)

The wait phase of `sendCommand` is a `select` over the caller's context and
`p.stdout` only — the loop has no case for `p.stderr`, so stderr chunks that
arrive while the command is in flight merely queue up on the channel.  The
arrivals are modelled as an explicit trace. -/

/-- One arrival observed by the wait phase of sendCommand. -/
inductive OutEvent where
  /-- A chunk became available on `p.stdout` (forwarded by runBackground). -/
  | stdout (data : Bytes)
  /-- A chunk became available on `p.stderr`; the wait loop has no case for
  it, so it stays queued on the channel. -/
  | stderrArrive (data : Bytes)
  /-- The caller's context was cancelled (`ctx.Done()` became ready). -/
  | cancel
deriving DecidableEq

/-- Result of the wait loop: the accumulated output and the stderr backlog
queued during the wait. -/
inductive WaitResult where
  /-- A stdout chunk contained a prompt line: `break waitLoop`, the chunk
  itself discarded. -/
  | prompted (out : Bytes) (errs : List Bytes)
  /-- Cancellation: `ctx.Done()` fired, return `ErrCommandExecCanceled` at once. -/
  | canceled (out : Bytes) (errs : List Bytes)
  /-- The trace ran out with neither prompt nor cancellation: the `select`
  blocks forever. -/
  | stalled (out : Bytes) (errs : List Bytes)
deriving DecidableEq

/-- The `waitLoop` of sendCommand (proxy.go): each stdout chunk is split on
newlines; if any part is the prompt the loop breaks without accumulating that
chunk, otherwise the whole chunk is appended to the output.  Cancellation
returns immediately.  stderr arrivals only extend the channel backlog. -/
def waitLoop : List OutEvent → Bytes → List Bytes → WaitResult
  | [], out, errs => .stalled out errs
  | .cancel :: _, out, errs => .canceled out errs
  | .stderrArrive e :: rest, out, errs => waitLoop rest out (errs ++ [e])
  | .stdout d :: rest, out, errs =>
    if (splitNewline d).any isPrompt then .prompted out errs
    else waitLoop rest (out ++ d) errs

/-- The `errLoop` of sendCommand (proxy.go): drain the queued stderr chunks;
each non-empty chunk overwrites the error, so the last non-empty one wins. -/
def errLoop : List Bytes → Option Bytes → Option Bytes
  | [], acc => acc
  | e :: rest, acc =>
    if 0 < e.length then errLoop rest (some e) else errLoop rest acc

/-- A Go `error` value returned by sendCommand. -/
inductive GoError where
  /-- Go `nil`. -/
  | noErr
  /-- The value `ErrCommandExecCanceled = errors.New("command execution canceled")`. -/
  | execCanceled
  /-- A surfaced diagnostic: `fmt.Errorf("%s", string(bytesErr))`. -/
  | diagnostic (msg : Bytes)
deriving DecidableEq

/-- The observable fate of one sendCommand call. -/
inductive SendResult where
  /-- Acquisition `<-p.requestLimiter` suspends forever (no token, channel open, nothing
  will ever mint a token in the modelled trace): the call never returns. -/
  | blockedOnLimiter
  /-- One of the drained output channels is closed, so `drain` spins forever:
  the call never returns. -/
  | drainDiverges (p : Proxy)
  /-- The enqueue `p.requestQueue <- b` hit a closed channel: panic. -/
  | panicked (p : Proxy)
  /-- The enqueue `p.requestQueue <- b` hit a full buffer and suspends with no consumer
  in the modelled trace. -/
  | blockedOnEnqueue (p : Proxy)
  /-- The wait loop never saw a prompt or a cancellation: the call never
  returns.  Carries the proxy (with the command enqueued), the partial
  output and the stderr backlog. -/
  | blockedOnWait (p : Proxy) (out : Bytes) (errs : List Bytes)
  /-- The deferred limiter release itself suspended. -/
  | blockedOnRelease (p : Proxy)
  /-- The call returned `(output, err)`; `p` is the proxy state at return,
  with the deferred limiter release applied. -/
  | returned (p : Proxy) (out : Bytes) (err : GoError)
deriving DecidableEq

/-- The deferred `p.requestLimiter <- struct{}{}` (proxy.go), run on every
return path of sendCommand. -/
def releaseLimiter (p : Proxy) (out : Bytes) (err : GoError) : SendResult :=
  match p.requestLimiter.send () with
  | .panicked => .panicked p
  | .suspend => .blockedOnRelease p
  | .sent lim => .returned { p with requestLimiter := lim } out err

/-- The error drain that follows the prompt (proxy.go): the last non-empty
queued diagnostic, if any, becomes the call's error. -/
def errPhase (p : Proxy) (out : Bytes) : Option Bytes → SendResult
  | none => releaseLimiter p out .noErr
  | some msg => releaseLimiter p out (.diagnostic msg)

/-- Dispatch on the fate of the wait loop (proxy.go): a stall never returns;
cancellation returns `ErrCommandExecCanceled`; a prompt is followed by the
error drain.  The stderr backlog left unconsumed stays on the channel. -/
def waitPhase (p : Proxy) : WaitResult → SendResult
  | .stalled out errs =>
    .blockedOnWait { p with stderr := { p.stderr with buf := errs } } out errs
  | .canceled out errs =>
    releaseLimiter { p with stderr := { p.stderr with buf := errs } }
      out .execCanceled
  | .prompted out errs => errPhase p out (errLoop errs none)

/-- sendCommand after the command has been enqueued (proxy.go): either
return immediately with empty output (`wait = false`, the Close path), or
run the wait loop. -/
def afterSend (p : Proxy) (wait : Bool) (events : List OutEvent) : SendResult :=
  if !wait then releaseLimiter p [] .noErr
  else waitPhase p (waitLoop events [] [])

/-- Dispatch on the outcome of `p.requestQueue <- b` (proxy.go): a closed
queue panics, a full queue suspends with no consumer in the modelled trace. -/
def enqueuePhase (p : Proxy) (wait : Bool) (events : List OutEvent) :
    SendChanOutcome Bytes → SendResult
  | .panicked => .panicked p
  | .suspend => .blockedOnEnqueue p
  | .sent q => afterSend { p with requestQueue := q } wait events

/-- sendCommand after the stale backlog has been drained (proxy.go):
newline-terminate the command and enqueue it. -/
def afterDrain (p : Proxy) (b : Bytes) (wait : Bool)
    (events : List OutEvent) : SendResult :=
  enqueuePhase p wait events (p.requestQueue.send (appendNewline b))

/-- Dispatch on the two stale-backlog drains (proxy.go): a closed channel
makes `drain` spin forever. -/
def drainPhase (p : Proxy) (b : Bytes) (wait : Bool)
    (events : List OutEvent) : Option (Chan Bytes) → Option (Chan Bytes) → SendResult
  | some stderr', some stdout' =>
    afterDrain { p with stderr := stderr', stdout := stdout' } b wait events
  | _, _ => .drainDiverges p

/-- sendCommand after the limiter token has been obtained (proxy.go): drain
the stale stderr/stdout backlog, then enqueue and wait. -/
def sendCommandBody (p : Proxy) (b : Bytes) (wait : Bool)
    (events : List OutEvent) : SendResult :=
  drainPhase p b wait events (drain p.stderr) (drain p.stdout)

/-- Dispatch on `<-p.requestLimiter` (proxy.go): an open empty limiter
suspends; a queued token, or a closed limiter's zero value, lets the call
proceed. -/
def acquirePhase (p : Proxy) (b : Bytes) (wait : Bool)
    (events : List OutEvent) : RecvOutcome Unit → SendResult
  | .suspend => .blockedOnLimiter
  | .got _ lim => sendCommandBody { p with requestLimiter := lim } b wait events
  | .closedEmpty lim => sendCommandBody { p with requestLimiter := lim } b wait events

/-- sendCommand (proxy.go): acquire the limiter token, then run the body;
the deferred release is applied by every returning branch. -/
def sendCommand (p : Proxy) (b : Bytes) (wait : Bool)
    (events : List OutEvent) : SendResult :=
  acquirePhase p b wait events p.requestLimiter.recvBlocking

/-- RawCommandsContext (proxy.go): join the actions with `";"` into a pooled
buffer and hand the bytes to sendCommand (which waits for the prompt).  The
pooled buffer is modelled as starting empty; its pool lives outside the
proxy core. -/
def RawCommandsContext (p : Proxy) (args : List Bytes)
    (events : List OutEvent) : SendResult :=
  sendCommand p (joinSemicolon args) true events

/-- The observable fate of one Close call. -/
inductive CloseResult where
  /-- Close returned `err`; `p` has all four channels closed. -/
  | ok (p : Proxy) (err : GoError)
  /-- Close panicked (send on a closed channel, or closing an already-closed
  channel). -/
  | panicked (p : Proxy)
  /-- Close never returns: its internal sendCommand call never returned,
  with the recorded fate. -/
  | stuck (r : SendResult)
deriving DecidableEq

/-- The four `close(...)` calls at the end of Close (proxy.go); closing an
already-closed channel panics. -/
def closeChannels (p : Proxy) (err : GoError) : CloseResult :=
  if p.requestLimiter.closed || p.requestQueue.closed
      || p.stderr.closed || p.stdout.closed then .panicked p
  else
    .ok
      { p with
        requestLimiter := { p.requestLimiter with closed := true }
        requestQueue := { p.requestQueue with closed := true }
        stderr := { p.stderr with closed := true }
        stdout := { p.stdout with closed := true } } err

/-- Close (proxy.go): send the quit command without waiting for a prompt
(`sendCommand(ctx, []byte(quitCommand), false)`), then cancel the context and
close the limiter, the request queue and both output channels. -/
def Close (p : Proxy) : CloseResult :=
  match sendCommand p quitBytes false [] with
  | .returned p' _ err => closeChannels p' err
  | .panicked p' => .panicked p'
  | r => .stuck r

/-! ### Result projections and distinguished states -/

/-- Whether a sendCommand call returned at all. -/
def SendResult.isReturned : SendResult → Bool
  | .returned .. => true
  | _ => false

/-- Whether a sendCommand call spins forever draining a closed channel. -/
def SendResult.divergesInDrain : SendResult → Bool
  | .drainDiverges _ => true
  | _ => false

/-- Whether a sendCommand call panicked. -/
def SendResult.isPanicked : SendResult → Bool
  | .panicked _ => true
  | _ => false

/-- The request-queue contents recorded in a sendCommand outcome, for the
outcomes reached after the enqueue. -/
def SendResult.queueOf : SendResult → Option (List Bytes)
  | .blockedOnWait p _ _ => some p.requestQueue.buf
  | .returned p _ _ => some p.requestQueue.buf
  | _ => none

/-- The output bytes of a returned call. -/
def SendResult.outputOf : SendResult → Option Bytes
  | .returned _ out _ => some out
  | _ => none

/-- The error of a returned call. -/
def SendResult.errOf : SendResult → Option GoError
  | .returned _ _ err => some err
  | _ => none

/-- The limiter channel of a returned call's final proxy state. -/
def SendResult.limiterOf : SendResult → Option (Chan Unit)
  | .returned p _ _ => some p.requestLimiter
  | _ => none

/-- Whether a Close call returned. -/
def CloseResult.isOk : CloseResult → Bool
  | .ok .. => true
  | _ => false

/-- Whether a Close call panicked. -/
def CloseResult.isPanicked : CloseResult → Bool
  | .panicked _ => true
  | _ => false

/-- Whether a Close call never returns. -/
def CloseResult.isStuck : CloseResult → Bool
  | .stuck _ => true
  | _ => false

/-- The limiter state holding the single minted token. -/
def limiterWithToken : Chan Unit := { cap := 1, buf := [()], closed := false }

/-- A proxy whose startup completed: the limiter token is minted and all
channels are open.  This is `NewProxy []` after runBackground observed the
first prompt. -/
def readyProxy : Proxy :=
  { NewProxy [] with requestLimiter := limiterWithToken }

/-- A proxy is ready for a command when it holds the minted limiter token,
its channels are open, and the request queue has room. -/
def isReady (p : Proxy) : Bool :=
  p.requestLimiter == limiterWithToken
    && !p.requestQueue.closed
    && decide (p.requestQueue.buf.length < p.requestQueue.cap)
    && !p.stdout.closed
    && !p.stderr.closed

/-- An event consumed by the wait loop without terminating it: a stderr
arrival, or a stdout chunk none of whose lines is the prompt. -/
def nonTerminating : OutEvent → Bool
  | .cancel => false
  | .stderrArrive _ => true
  | .stdout d => !(splitNewline d).any isPrompt

/-- Whether the wait loop terminated (by prompt or cancellation). -/
def WaitResult.isDone : WaitResult → Bool
  | .stalled .. => false
  | _ => true

/-- The single-slot limiter with no token in it. -/
def limiterEmpty : Chan Unit := { cap := 1, buf := [], closed := false }

/-- The proxy state observed right after sendCommand has drained the stale
output backlog and enqueued the newline-terminated command. -/
def afterEnqueue (p : Proxy) (b : Bytes) : Proxy :=
  { p with
    stderr := { p.stderr with buf := [] }
    stdout := { p.stdout with buf := [] }
    requestQueue :=
      { p.requestQueue with buf := p.requestQueue.buf ++ [appendNewline b] } }

/-- The state readyProxy reaches when a `['x']` command is cancelled: the
command sits in the request queue and the limiter token is back. -/
def cancelReturnProxy : Proxy :=
  { NewProxy [] with
    requestLimiter := limiterWithToken
    requestQueue := { cap := 100, buf := [[ 'x', '\n']], closed := false } }

/-- The state Close leaves behind on a ready proxy: the newline-terminated
quit command is queued, the limiter token is back in its slot, and all four
channels are closed. -/
def closedSessionOf (p : Proxy) (b : Bytes) : Proxy :=
  { p with
    requestLimiter := { cap := 1, buf := [()], closed := true }
    requestQueue :=
      { p.requestQueue with
        buf := p.requestQueue.buf ++ [appendNewline b], closed := true }
    stdout := { p.stdout with buf := [], closed := true }
    stderr := { p.stderr with buf := [], closed := true } }

/-- The state Close leaves behind when called on readyProxy: the quit
command is queued and all four channels are closed. -/
def closedProxy : Proxy :=
  { NewProxy [] with
    requestLimiter := { cap := 1, buf := [()], closed := true }
    requestQueue := { cap := 100, buf := [quitBytes ++ ['\n']], closed := true }
    stdout := { cap := 100, buf := [], closed := true }
    stderr := { cap := 100, buf := [], closed := true } }

/-! ## Helper lemmas -/

/-- Unpacking of the readiness predicate. -/
theorem isReady_spec (p : Proxy) (h : isReady p = true) :
    p.requestLimiter = limiterWithToken
    ∧ p.requestQueue.closed = false
    ∧ p.requestQueue.buf.length < p.requestQueue.cap
    ∧ p.stdout.closed = false
    ∧ p.stderr.closed = false := by
  simp only [isReady, Bool.and_eq_true, beq_iff_eq, decide_eq_true_eq,
    Bool.not_eq_true'] at h
  exact ⟨h.1.1.1.1, h.1.1.1.2, h.1.1.2, h.1.2, h.2⟩

/-- When every attempt of runBackground fails at `cmd.Start()`, the retry
supervisor leaves the proxy untouched, however many attempts it makes. -/
theorem runWithRetry_startFail (n : Nat) (p : Proxy) (chunks : List Bytes) :
    runWithRetry p n false chunks = p := by
  induction n with
  | zero => rfl
  | succ m ih =>
    rw [show runWithRetry p (m + 1) false chunks
      = runWithRetry p m false chunks from by
        simp [runWithRetry, runBackgroundStartup]]
    exact ih

/-- Events that neither prompt nor cancel are consumed by the wait loop
without terminating it. -/
theorem waitLoop_skip_nonTerminating (pre : List OutEvent) :
    ∀ rest out errs, pre.all nonTerminating = true →
      ∃ out' errs', waitLoop (pre ++ rest) out errs = waitLoop rest out' errs' := by
  induction pre with
  | nil => exact fun rest out errs _ => ⟨out, errs, rfl⟩
  | cons e pre ih =>
    intro rest out errs h
    simp only [List.all_cons, Bool.and_eq_true] at h
    cases e with
    | cancel => simp [nonTerminating] at h
    | stderrArrive d =>
      simpa [waitLoop] using ih rest out (errs ++ [d]) h.2
    | stdout d =>
      have hnp : (splitNewline d).any isPrompt = false := by
        simpa [nonTerminating] using h.1
      simpa [waitLoop, hnp] using ih rest (out ++ d) errs h.2

/-- The deferred limiter send restores the token when it finds the slot it
emptied. -/
theorem releaseLimiter_restores (q : Proxy) (out : Bytes) (err : GoError)
    (p' : Proxy) (out' : Bytes) (err' : GoError)
    (hlim : q.requestLimiter = limiterEmpty)
    (h : releaseLimiter q out err = .returned p' out' err') :
    p'.requestLimiter = limiterWithToken := by
  simp [releaseLimiter, hlim, limiterEmpty, Chan.send,
    SendResult.returned.injEq] at h
  rw [← h.1]
  rfl

/-- Every returning branch of errPhase goes through the deferred release. -/
theorem errPhase_restores (q : Proxy) (out0 : Bytes) (o : Option Bytes)
    (p' : Proxy) (out : Bytes) (err : GoError)
    (hlim : q.requestLimiter = limiterEmpty)
    (h : errPhase q out0 o = .returned p' out err) :
    p'.requestLimiter = limiterWithToken := by
  cases o with
  | none => exact releaseLimiter_restores _ _ _ _ _ _ hlim h
  | some msg => exact releaseLimiter_restores _ _ _ _ _ _ hlim h

/-- Every returning branch of waitPhase goes through the deferred release. -/
theorem waitPhase_restores (q : Proxy) (w : WaitResult)
    (p' : Proxy) (out : Bytes) (err : GoError)
    (hlim : q.requestLimiter = limiterEmpty)
    (h : waitPhase q w = .returned p' out err) :
    p'.requestLimiter = limiterWithToken := by
  cases w with
  | stalled out0 errs0 => exact absurd h (by simp [waitPhase])
  | canceled out0 errs0 =>
    exact releaseLimiter_restores _ _ _ _ _ _ (by simpa using hlim) h
  | prompted out0 errs0 => exact errPhase_restores _ _ _ _ _ _ hlim h

/-- Every returning branch of sendCommandBody goes through the deferred
limiter release. -/
theorem sendCommandBody_restores (q : Proxy) (b : Bytes) (wait : Bool)
    (events : List OutEvent) (p' : Proxy) (out : Bytes) (err : GoError)
    (hlim : q.requestLimiter = limiterEmpty)
    (h : sendCommandBody q b wait events = .returned p' out err) :
    p'.requestLimiter = limiterWithToken := by
  unfold sendCommandBody drainPhase at h
  cases hd1 : drain q.stderr with
  | none => rw [hd1] at h; exact absurd h (by simp)
  | some stderr' =>
    cases hd2 : drain q.stdout with
    | none => rw [hd1, hd2] at h; exact absurd h (by simp)
    | some stdout' =>
      rw [hd1, hd2] at h
      simp only [afterDrain] at h
      cases hq : Chan.send
          ({ q with stderr := stderr', stdout := stdout' } : Proxy).requestQueue
          (appendNewline b) with
      | panicked => rw [hq] at h; exact absurd h (by simp [enqueuePhase])
      | suspend => rw [hq] at h; exact absurd h (by simp [enqueuePhase])
      | sent q1 =>
        rw [hq] at h
        simp only [enqueuePhase, afterSend] at h
        cases wait with
        | false =>
          exact releaseLimiter_restores _ _ _ _ _ _ (by simpa using hlim) h
        | true =>
          simp only [Bool.not_true, Bool.false_eq_true, if_false] at h
          exact waitPhase_restores _ _ _ _ _ (by simpa using hlim) h

/-- On a ready proxy, sendCommand reduces to the wait-phase dispatch on the
wait loop's fate, in the state where the stale backlog has been drained, the
newline-terminated command enqueued, and the limiter slot emptied by the
acquisition. -/
theorem sendCommand_ready_eq (p : Proxy) (b : Bytes) (events : List OutEvent)
    (hready : isReady p = true) :
    sendCommand p b true events
      = waitPhase { afterEnqueue p b with requestLimiter := limiterEmpty }
          (waitLoop events [] []) := by
  obtain ⟨hlim, hqc, hqlen, hoc, hec⟩ := isReady_spec p hready
  obtain ⟨opts, lim, rq, so, se⟩ := p
  obtain ⟨qcap, qbuf, qc⟩ := rq
  obtain ⟨ocap, obuf, oc⟩ := so
  obtain ⟨ecap, ebuf, ec⟩ := se
  simp only at hlim hqc hqlen hoc hec
  subst hlim hqc hoc hec
  have hle : ¬(qcap ≤ qbuf.length) := not_le.mpr hqlen
  simp [sendCommand, acquirePhase, sendCommandBody, drainPhase, afterDrain,
    enqueuePhase, afterSend, drain, Chan.send, Chan.recvBlocking,
    limiterWithToken, limiterEmpty, afterEnqueue, hle]

/-! ## Claim C2 -/

/-- C2: every sendCommand call that acquires the single limiter token puts
the token back in the limiter before it returns, on every exit path —
success, error-signal failure and context cancellation alike — so a returned
call always leaves the limiter holding its token again. -/
theorem sendCommand_releases_limiter (p : Proxy) (b : Bytes) (wait : Bool)
    (events : List OutEvent) (p' : Proxy) (out : Bytes) (err : GoError)
    (hlim : p.requestLimiter = limiterWithToken)
    (hret : sendCommand p b wait events = .returned p' out err) :
    p'.requestLimiter = limiterWithToken := by
  unfold sendCommand at hret
  rw [hlim] at hret
  rw [show limiterWithToken.recvBlocking = RecvOutcome.got () limiterEmpty
    from rfl] at hret
  simp only [acquirePhase] at hret
  exact sendCommandBody_restores _ _ _ _ _ _ _ rfl hret

/-- Witness for C2: a concrete cancelled call on a ready proxy returns with
the limiter token restored. -/
theorem sendCommand_releases_limiter_witness :
    readyProxy.requestLimiter = limiterWithToken
    ∧ sendCommand readyProxy ['x'] true [OutEvent.cancel]
        = SendResult.returned cancelReturnProxy [] GoError.execCanceled
    ∧ cancelReturnProxy.requestLimiter = limiterWithToken :=
  ⟨rfl, by decide,
    sendCommand_releases_limiter readyProxy ['x'] true [OutEvent.cancel]
      cancelReturnProxy [] GoError.execCanceled rfl (by decide)⟩

/-! ## Claim C1 -/

/-- C1 counterexample: a non-warning stderr line surfaced while a command is
in flight does not, by itself, make the call fail: the wait loop has no
stderr case, so with no prompt forthcoming the call never returns at all and
no diagnostic error is produced. -/
theorem sendCommand_stderr_alone_never_returns :
    routeStderr true ['b', 'o', 'o', 'm'] = some ['b', 'o', 'o', 'm']
    ∧ (sendCommand readyProxy ['a'] true
        [OutEvent.stderrArrive ['b', 'o', 'o', 'm']]).isReturned = false
    ∧ (sendCommand readyProxy ['a'] true
        [OutEvent.stderrArrive ['b', 'o', 'o', 'm']]).errOf = none := by
  decide

/-- C1 (amended): the wait terminates only on the prompt sentinel or
cancellation — events that neither prompt nor cancel leave the wait
undone — and when the prompt does terminate the wait, the last non-empty
queued diagnostic is returned as the call's error while the session stays
usable (token restored, channels open). -/
theorem sendCommand_diagnostic_after_prompt (p : Proxy) (b : Bytes)
    (events pre : List OutEvent) (out msg : Bytes) (errs : List Bytes)
    (hready : isReady p = true)
    (hw : waitLoop events [] [] = .prompted out errs)
    (he : errLoop errs none = some msg)
    (hpre : pre.all nonTerminating = true) :
    (∃ p', sendCommand p b true events
          = .returned p' out (GoError.diagnostic msg)
        ∧ p'.requestLimiter = limiterWithToken
        ∧ p'.stdout.closed = false
        ∧ p'.stderr.closed = false
        ∧ p'.requestQueue.closed = false)
    ∧ (waitLoop pre [] []).isDone = false := by
  obtain ⟨hlim, hqc, hqlen, hoc, hec⟩ := isReady_spec p hready
  constructor
  · rw [sendCommand_ready_eq p b events hready, hw]
    simp only [waitPhase, he, errPhase]
    exact ⟨_, rfl, rfl, hoc, hec, hqc⟩
  · obtain ⟨out', errs', h⟩ :=
      waitLoop_skip_nonTerminating pre [] [] [] hpre
    rw [List.append_nil] at h
    simp [h, WaitResult.isDone, waitLoop]

/-- Witness for C1: a ready proxy, two queued diagnostics, then the prompt:
the call returns the last diagnostic as its error. -/
theorem sendCommand_diagnostic_after_prompt_witness :
    isReady readyProxy = true
    ∧ waitLoop [OutEvent.stderrArrive ['e', '1'], OutEvent.stderrArrive ['e', '2'],
        OutEvent.stdout ['>']] [] []
        = .prompted [] [['e', '1'], ['e', '2']]
    ∧ errLoop [['e', '1'], ['e', '2']] none = some ['e', '2']
    ∧ ((∃ p', sendCommand readyProxy ['a'] true
          [OutEvent.stderrArrive ['e', '1'], OutEvent.stderrArrive ['e', '2'],
            OutEvent.stdout ['>']]
          = .returned p' [] (GoError.diagnostic ['e', '2'])
        ∧ p'.requestLimiter = limiterWithToken
        ∧ p'.stdout.closed = false
        ∧ p'.stderr.closed = false
        ∧ p'.requestQueue.closed = false)
      ∧ (waitLoop [OutEvent.stderrArrive ['z']] [] []).isDone = false) :=
  ⟨by decide, by decide, by decide,
    sendCommand_diagnostic_after_prompt readyProxy ['a']
      [OutEvent.stderrArrive ['e', '1'], OutEvent.stderrArrive ['e', '2'],
        OutEvent.stdout ['>']]
      [OutEvent.stderrArrive ['z']] [] ['e', '2'] [['e', '1'], ['e', '2']]
      (by decide) (by decide) (by decide) (by decide)⟩

/-! ## Claim C3 -/

/-- C3: a line is the prompt exactly when it is the single character `>`;
a stdout chunk terminates the command wait exactly when one of its
newline-separated lines is the prompt, and otherwise it is accumulated; the
startup wait likewise consumes a chunk exactly when none of its (trimmed)
lines is the prompt. -/
theorem prompt_recognition (part d : Bytes) (rest : List OutEvent)
    (out : Bytes) (errs : List Bytes) (chunks : List Bytes) :
    (isPrompt part = true ↔ part = ['>'])
    ∧ waitLoop (OutEvent.stdout d :: rest) out errs
        = (if (splitNewline d).any isPrompt then WaitResult.prompted out errs
           else waitLoop rest (out ++ d) errs)
    ∧ startupWait (d :: chunks)
        = (if chunkHasPrompt d then some chunks else startupWait chunks) := by
  refine ⟨?_, rfl, rfl⟩
  simp [isPrompt]

/-- Witness for C3, at a line that contains `>` amid other text: it is not
the prompt, and its chunk is accumulated rather than terminating the wait. -/
theorem prompt_recognition_witness :
    ((isPrompt ['a', '>', 'b'] = true ↔ ['a', '>', 'b'] = ['>'])
      ∧ waitLoop [OutEvent.stdout ['a', '>', 'b']] [] []
          = (if (splitNewline ['a', '>', 'b']).any isPrompt
             then WaitResult.prompted [] []
             else waitLoop [] (([] : Bytes) ++ ['a', '>', 'b']) [])
      ∧ startupWait (['a', '>', 'b'] :: [['>']])
          = (if chunkHasPrompt ['a', '>', 'b'] then some [['>']]
             else startupWait [['>']]))
    ∧ isPrompt ['a', '>', 'b'] = false
    ∧ isPrompt ['>'] = true :=
  ⟨prompt_recognition ['a', '>', 'b'] ['a', '>', 'b'] [] [] [] [['>']],
    by decide, by decide⟩

/-! ## Claim C5 -/

/-- C5: when the caller's context is cancelled while the call is awaiting
output — after any number of non-terminating arrivals — the call returns
the dedicated `ErrCommandExecCanceled` error at the cancellation event,
whatever output might still arrive later, and the limiter token is
restored. -/
theorem sendCommand_cancel_returns_canceled (p : Proxy) (b : Bytes)
    (pre rest : List OutEvent)
    (hready : isReady p = true)
    (hpre : pre.all nonTerminating = true) :
    ∃ p' out,
      sendCommand p b true (pre ++ OutEvent.cancel :: rest)
        = .returned p' out GoError.execCanceled
      ∧ p'.requestLimiter = limiterWithToken := by
  obtain ⟨out', errs', hw⟩ :=
    waitLoop_skip_nonTerminating pre (OutEvent.cancel :: rest) [] [] hpre
  rw [sendCommand_ready_eq p b _ hready, hw]
  simp only [waitLoop, waitPhase]
  exact ⟨_, out', rfl, rfl⟩

/-- Witness for C5: a partial result arrives, then cancellation, then a
prompt that is never waited for. -/
theorem sendCommand_cancel_returns_canceled_witness :
    isReady readyProxy = true
    ∧ [OutEvent.stdout ['p', 't']].all nonTerminating = true
    ∧ (∃ p' out,
        sendCommand readyProxy ['x'] true
          ([OutEvent.stdout ['p', 't']] ++ OutEvent.cancel :: [OutEvent.stdout ['>']])
          = .returned p' out GoError.execCanceled
        ∧ p'.requestLimiter = limiterWithToken) :=
  ⟨by decide, by decide,
    sendCommand_cancel_returns_canceled readyProxy ['x']
      [OutEvent.stdout ['p', 't']] [OutEvent.stdout ['>']]
      (by decide) (by decide)⟩

/-! ## Claim C4 -/

/-- C4 counterexample: when every runBackground attempt fails before a
prompt is seen and the retry budget runs out, a subsequent sendCommand does
not fail with an error — it suspends forever on the never-minted limiter
token. -/
theorem retry_exhaustion_blocks_forever :
    sendCommand (runWithRetry (NewProxy []) 5 false []) ['a'] true []
        = SendResult.blockedOnLimiter
    ∧ (sendCommand (runWithRetry (NewProxy []) 5 false []) ['a'] true
        []).isReturned = false
    ∧ (sendCommand (runWithRetry (NewProxy []) 5 false []) ['a'] true
        []).errOf = none := by
  decide

/-- C4 (amended): exhausting the retry budget performs no teardown — the
proxy is left exactly as the failing attempts left it — so when the limiter
token was never minted, any outstanding or later sendCommand call blocks
forever acquiring it instead of failing with an error. -/
theorem retry_exhaustion_leaves_session_wedged (p : Proxy) (n : Nat)
    (b : Bytes) (events : List OutEvent)
    (hlim : p.requestLimiter = limiterEmpty) :
    runWithRetry p n false [] = p
    ∧ sendCommand (runWithRetry p n false []) b true events
        = SendResult.blockedOnLimiter
    ∧ SendResult.blockedOnLimiter.isReturned = false := by
  refine ⟨runWithRetry_startFail n p [], ?_, rfl⟩
  rw [runWithRetry_startFail n p []]
  unfold sendCommand
  rw [hlim]
  rfl

/-- Witness for C4: five failing attempts on a fresh proxy. -/
theorem retry_exhaustion_leaves_session_wedged_witness :
    (NewProxy []).requestLimiter = limiterEmpty
    ∧ (runWithRetry (NewProxy []) 5 false [] = NewProxy []
      ∧ sendCommand (runWithRetry (NewProxy []) 5 false []) ['a'] true []
          = SendResult.blockedOnLimiter
      ∧ SendResult.blockedOnLimiter.isReturned = false) :=
  ⟨rfl, retry_exhaustion_leaves_session_wedged (NewProxy []) 5 ['a'] [] rfl⟩

/-! ## Claim C6 -/

/-- C6: a non-empty stderr line containing `WARNING` is discarded when
suppression is on and surfaced when suppression is off; a non-warning
non-empty line is surfaced, whitespace-trimmed, under both configurations;
and suppression is on by default. -/
theorem stderr_warning_suppression (line : Bytes) (h : line ≠ []) :
    routeStderr true line
        = (if containsBytes line warningBytes then none
           else some (trimSpace line))
    ∧ routeStderr false line = some (trimSpace line)
    ∧ (NewProxy []).options.suppressWarning = true := by
  have hlen : ¬line.length = 0 := by
    simpa [List.length_eq_zero] using h
  refine ⟨?_, ?_, rfl⟩
  · simp [routeStderr, hlen]
  · simp [routeStderr, hlen]

/-- Witness for C6 at a warning line: discarded when suppressed, surfaced
otherwise. -/
theorem stderr_warning_suppression_witness :
    (['W', 'A', 'R', 'N', 'I', 'N', 'G', ' ', 'x'] : Bytes) ≠ []
    ∧ (routeStderr true ['W', 'A', 'R', 'N', 'I', 'N', 'G', ' ', 'x']
          = (if containsBytes ['W', 'A', 'R', 'N', 'I', 'N', 'G', ' ', 'x']
                warningBytes then none
             else some (trimSpace ['W', 'A', 'R', 'N', 'I', 'N', 'G', ' ', 'x']))
      ∧ routeStderr false ['W', 'A', 'R', 'N', 'I', 'N', 'G', ' ', 'x']
          = some (trimSpace ['W', 'A', 'R', 'N', 'I', 'N', 'G', ' ', 'x'])
      ∧ (NewProxy []).options.suppressWarning = true) :=
  ⟨by decide,
    stderr_warning_suppression ['W', 'A', 'R', 'N', 'I', 'N', 'G', ' ', 'x']
      (by decide)⟩

/-! ## Claim C7 -/

/-- C7: RawCommandsContext enqueues exactly the action strings joined with
`;`, newline-terminated — the newline being appended exactly when the
joined string does not already end with one. -/
theorem rawCommands_payload (p : Proxy) (args : List Bytes)
    (events : List OutEvent)
    (hready : isReady p = true) (hargs : args ≠ []) :
    (RawCommandsContext p args events).queueOf
        = some (p.requestQueue.buf ++ [appendNewline (joinSemicolon args)])
    ∧ (hasSuffixBytes (joinSemicolon args) ['\n'] = false →
        appendNewline (joinSemicolon args) = joinSemicolon args ++ ['\n'])
    ∧ (hasSuffixBytes (joinSemicolon args) ['\n'] = true →
        appendNewline (joinSemicolon args) = joinSemicolon args) := by
  refine ⟨?_, fun hs => by simp [appendNewline, hs],
    fun hs => by simp [appendNewline, hs]⟩
  unfold RawCommandsContext
  rw [sendCommand_ready_eq p _ events hready]
  cases hw : waitLoop events [] [] with
  | stalled out errs =>
    simp [waitPhase, SendResult.queueOf, afterEnqueue]
  | canceled out errs =>
    simp [waitPhase, releaseLimiter, limiterEmpty, Chan.send,
      SendResult.queueOf, afterEnqueue]
  | prompted out errs =>
    cases he : errLoop errs none with
    | none =>
      simp [waitPhase, errPhase, he, releaseLimiter, limiterEmpty, Chan.send,
        SendResult.queueOf, afterEnqueue]
    | some msg =>
      simp [waitPhase, errPhase, he, releaseLimiter, limiterEmpty, Chan.send,
        SendResult.queueOf, afterEnqueue]

/-- Witness for C7: two actions, no trailing newline on the join. -/
theorem rawCommands_payload_witness :
    isReady readyProxy = true
    ∧ ([['a'], ['b']] : List Bytes) ≠ []
    ∧ ((RawCommandsContext readyProxy [['a'], ['b']]
          [OutEvent.stdout ['>']]).queueOf
        = some (readyProxy.requestQueue.buf
            ++ [appendNewline (joinSemicolon [['a'], ['b']])])
      ∧ (hasSuffixBytes (joinSemicolon [['a'], ['b']]) ['\n'] = false →
          appendNewline (joinSemicolon [['a'], ['b']])
            = joinSemicolon [['a'], ['b']] ++ ['\n'])
      ∧ (hasSuffixBytes (joinSemicolon [['a'], ['b']]) ['\n'] = true →
          appendNewline (joinSemicolon [['a'], ['b']])
            = joinSemicolon [['a'], ['b']])) :=
  ⟨by decide, by decide,
    rawCommands_payload readyProxy [['a'], ['b']] [OutEvent.stdout ['>']]
      (by decide) (by decide)⟩

/-! ## Claim C8 -/

/-- C8 counterexample: a stdout line containing the startup banner that
arrives after the first prompt is forwarded by runBackground unchanged and
is delivered as the command's (successful) result bytes. -/
theorem banner_after_prompt_delivered :
    routeStdout shellModeBannerBytes = some shellModeBannerBytes
    ∧ containsBytes shellModeBannerBytes shellModeBannerBytes = true
    ∧ (sendCommand readyProxy ['a'] true
        [OutEvent.stdout shellModeBannerBytes,
          OutEvent.stdout ['>']]).outputOf = some shellModeBannerBytes
    ∧ (sendCommand readyProxy ['a'] true
        [OutEvent.stdout shellModeBannerBytes,
          OutEvent.stdout ['>']]).errOf = some GoError.noErr := by
  decide

/-- C8 (amended): before the first prompt the startup wait discards every
chunk without a prompt line — the banner among them, leaving no trace — but
after the first prompt stdout chunks are forwarded with no banner check at
all, so a banner line would be delivered as result bytes. -/
theorem banner_discarded_only_at_startup (chunk : Bytes) (rest : List Bytes)
    (hnp : chunkHasPrompt chunk = false) :
    startupWait (chunk :: rest) = startupWait rest
    ∧ chunkHasPrompt shellModeBannerBytes = false
    ∧ routeStdout shellModeBannerBytes = some shellModeBannerBytes := by
  refine ⟨?_, by decide, by decide⟩
  simp [startupWait, hnp]

/-- Witness for C8: the banner chunk itself is consumed traceless by the
startup wait. -/
theorem banner_discarded_only_at_startup_witness :
    chunkHasPrompt shellModeBannerBytes = false
    ∧ (startupWait (shellModeBannerBytes :: [['>']]) = startupWait [['>']]
      ∧ chunkHasPrompt shellModeBannerBytes = false
      ∧ routeStdout shellModeBannerBytes = some shellModeBannerBytes) :=
  ⟨by decide,
    banner_discarded_only_at_startup shellModeBannerBytes [['>']] (by decide)⟩

/-! ## Claim C9 -/

/-- On a ready proxy, the no-wait sendCommand used by Close returns empty
output and no error, with the command enqueued and the token restored. -/
theorem sendCommand_ready_nowait_eq (p : Proxy) (b : Bytes)
    (events : List OutEvent) (hready : isReady p = true) :
    sendCommand p b false events
      = .returned { afterEnqueue p b with requestLimiter := limiterWithToken }
          [] GoError.noErr := by
  obtain ⟨hlim, hqc, hqlen, hoc, hec⟩ := isReady_spec p hready
  obtain ⟨opts, lim, rq, so, se⟩ := p
  obtain ⟨qcap, qbuf, qc⟩ := rq
  obtain ⟨ocap, obuf, oc⟩ := so
  obtain ⟨ecap, ebuf, ec⟩ := se
  simp only at hlim hqc hqlen hoc hec
  subst hlim hqc hoc hec
  have hle : ¬(qcap ≤ qbuf.length) := not_le.mpr hqlen
  simp [sendCommand, acquirePhase, sendCommandBody, drainPhase, afterDrain,
    enqueuePhase, afterSend, drain, Chan.send, Chan.recvBlocking,
    releaseLimiter, limiterWithToken, limiterEmpty, afterEnqueue, hle]

/-- A call on a proxy whose stderr channel is closed never gets past the
stale-output drain: the drain loop spins forever on the always-ready closed
channel. -/
theorem sendCommand_stderr_closed_diverges (q : Proxy) (b : Bytes) (w : Bool)
    (events : List OutEvent) (t : Unit) (lim : Chan Unit)
    (hrecv : q.requestLimiter.recvBlocking = .got t lim)
    (hec : q.stderr.closed = true) :
    sendCommand q b w events
      = .drainDiverges { q with requestLimiter := lim } := by
  unfold sendCommand
  rw [hrecv]
  simp only [acquirePhase]
  unfold sendCommandBody
  rw [show drain ({ q with requestLimiter := lim } : Proxy).stderr = none from
    by simp [drain, hec]]
  cases hdo : drain ({ q with requestLimiter := lim } : Proxy).stdout with
  | none => rfl
  | some s => rfl

/-- C9 counterexample: closing a quiescent ready session succeeds without
panicking, but afterwards a sendCommand and a second Close both spin forever
in the stale-output drain — they neither fail with an error nor panic. -/
theorem post_close_operations_never_return :
    Close readyProxy = .ok closedProxy GoError.noErr
    ∧ (sendCommand closedProxy ['a'] true []).divergesInDrain = true
    ∧ (sendCommand closedProxy ['a'] true []).isReturned = false
    ∧ (sendCommand closedProxy ['a'] true []).isPanicked = false
    ∧ (Close closedProxy).isStuck = true
    ∧ (Close closedProxy).isOk = false
    ∧ (Close closedProxy).isPanicked = false := by
  decide

/-- C9 (amended): Close on a quiescent ready session does not panic — it
returns with all four channels torn down — but operations issued after it do
not fail with an error: a sendCommand call and a second Close both block
forever in the drain loop on the closed stderr channel. -/
theorem close_ok_then_operations_stuck (p : Proxy) (b : Bytes) (w : Bool)
    (events : List OutEvent) (hready : isReady p = true) :
    ∃ p', Close p = .ok p' GoError.noErr
      ∧ p'.stderr.closed = true
      ∧ p'.stdout.closed = true
      ∧ p'.requestQueue.closed = true
      ∧ p'.requestLimiter.closed = true
      ∧ (sendCommand p' b w events).divergesInDrain = true
      ∧ (sendCommand p' b w events).isReturned = false
      ∧ (sendCommand p' b w events).isPanicked = false
      ∧ (Close p').isStuck = true := by
  obtain ⟨hlim, hqc, hqlen, hoc, hec⟩ := isReady_spec p hready
  have hclose : Close p = .ok (closedSessionOf p quitBytes) GoError.noErr := by
    unfold Close
    rw [sendCommand_ready_nowait_eq p quitBytes [] hready]
    simp [closeChannels, afterEnqueue, closedSessionOf, limiterWithToken,
      hqc, hoc, hec]
  have hstuck : (Close (closedSessionOf p quitBytes)).isStuck = true := by
    unfold Close
    rw [sendCommand_stderr_closed_diverges (closedSessionOf p quitBytes)
      quitBytes false [] () ({ cap := 1, buf := [], closed := true } : Chan Unit)
      rfl rfl]
    rfl
  refine ⟨closedSessionOf p quitBytes, hclose, rfl, rfl, rfl, rfl,
    ?_, ?_, ?_, hstuck⟩
  all_goals
    rw [sendCommand_stderr_closed_diverges (closedSessionOf p quitBytes) b w
      events () ({ cap := 1, buf := [], closed := true } : Chan Unit) rfl rfl]
  all_goals rfl

/-- Witness for C9 on the concrete ready proxy. -/
theorem close_ok_then_operations_stuck_witness :
    isReady readyProxy = true
    ∧ (∃ p', Close readyProxy = .ok p' GoError.noErr
        ∧ p'.stderr.closed = true
        ∧ p'.stdout.closed = true
        ∧ p'.requestQueue.closed = true
        ∧ p'.requestLimiter.closed = true
        ∧ (sendCommand p' ['a'] true []).divergesInDrain = true
        ∧ (sendCommand p' ['a'] true []).isReturned = false
        ∧ (sendCommand p' ['a'] true []).isPanicked = false
        ∧ (Close p').isStuck = true) :=
  ⟨by decide,
    close_ok_then_operations_stuck readyProxy ['a'] true [] (by decide)⟩

/-! ## Claim C10 -/

/-- C10 counterexample: the queue-depth override is merged into the
configuration snapshot but the queues are still created with capacity 100,
not 42. -/
theorem commandQueueLength_ignored_at_42 :
    (NewProxy [CommandQueueLength 42]).options.commandQueueLength = 42
    ∧ (NewProxy [CommandQueueLength 42]).stdout.cap = 100
    ∧ ¬(NewProxy [CommandQueueLength 42]).stdout.cap = 42
    ∧ (NewProxy [CommandQueueLength 42]).stderr.cap = 100
    ∧ ¬(NewProxy [CommandQueueLength 42]).stderr.cap = 42
    ∧ (NewProxy [CommandQueueLength 42]).requestQueue.cap = 100
    ∧ ¬(NewProxy [CommandQueueLength 42]).requestQueue.cap = 42 := by
  decide

/-- C10 (amended): `CommandQueueLength n` is merged into the configuration
snapshot, but NewProxy ignores it — the output, error and request queues
are always created with capacity 100 (and the limiter with capacity 1),
whatever options are supplied; the default snapshot carries queue length
0. -/
theorem newProxy_queue_capacities (n : Int) (opts : List GoOption) :
    (NewProxy [CommandQueueLength n]).options.commandQueueLength = n
    ∧ (NewProxy opts).stdout.cap = 100
    ∧ (NewProxy opts).stderr.cap = 100
    ∧ (NewProxy opts).requestQueue.cap = 100
    ∧ (NewProxy opts).requestLimiter.cap = 1
    ∧ (NewProxy []).options.commandQueueLength = 0 :=
  ⟨rfl, rfl, rfl, rfl, rfl, rfl⟩

end Inkscape
